import Mathlib

/-!
Shallow embedding of `template.py`, a small entity-management scaffold:
an in-memory keyed repository (a Python dict guarded by a lock), an
observer `Subject`, a singleton `ConfigManager`, a notification factory,
a `UserService` (validate, save, send, publish event) and a `SystemFacade`.
Control flow in the source is entirely synchronous and single-threaded per
request, so state is passed explicitly; `datetime.now()` is modelled as an
explicit `Nat` clock; Python exceptions are modelled with `Except`.
-/

set_option autoImplicit false

/-- Statuses of an entity, from `EntityStatus(Enum)`. -/
inductive EntityStatus where
  | ACTIVE
  | INACTIVE
  | PENDING
  deriving DecidableEq, Repr

/-- The `User(BaseEntity)` record: identifier, name, email, status and the
two timestamps inherited from `BaseEntity`. -/
structure User where
  id : String
  name : String
  email : String
  status : EntityStatus
  created_at : Nat
  updated_at : Nat
  deriving DecidableEq, Repr

/-- The `User.__init__` constructor: `BaseEntity.__init__` sets both
timestamps to the current time, and `status` defaults to `ACTIVE`. -/
def User.init (id name email : String) (now : Nat) : User :=
  { id := id, name := name, email := email, status := EntityStatus.ACTIVE,
    created_at := now, updated_at := now }

/-- The Python membership test `"@" in user.email` for a one-character
needle: the string contains the character. -/
def strContainsChar (s : String) (c : Char) : Bool :=
  s.data.contains c

/-- Error kinds of the spec taxonomy: `ValidationError` is the
`ValueError("Invalid user data")` raised by `UserService.create_user`,
`InvalidArgument` the `ValueError` raised by `NotificationFactory`. -/
inductive Err where
  | validationError (msg : String)
  | invalidArgument (msg : String)
  deriving DecidableEq, Repr

section Dict

variable {α : Type}

/-- Lookup in a Python dict modelled as an association list:
`self._storage.get(id)` returns the value or `None`. -/
def dictGet : List (String × α) → String → Option α
  | [], _ => none
  | (k', v) :: rest, k => if k' = k then some v else dictGet rest k

/-- Assignment `d[k] = v` on a Python dict: replaces the value in place if
the key is present, otherwise appends the new entry (insertion order). -/
def dictInsert : List (String × α) → String → α → List (String × α)
  | [], k, v => [(k, v)]
  | (k', v') :: rest, k, v =>
    if k' = k then (k, v) :: rest else (k', v') :: dictInsert rest k v

/-- Deletion `del d[k]` guarded by `if k in d`: removes the entry for `k`
when present (a dict holds at most one), otherwise leaves the list alone. -/
def dictDelete : List (String × α) → String → List (String × α)
  | [], _ => []
  | (k', v') :: rest, k =>
    if k' = k then rest else (k', v') :: dictDelete rest k

theorem dictGet_insert_self (s : List (String × α)) (k : String) (v : α) :
    dictGet (dictInsert s k v) k = some v := by
  induction s with
  | nil => simp [dictInsert, dictGet]
  | cons hd tl ih =>
    obtain ⟨k', v'⟩ := hd
    by_cases h : k' = k
    · simp [dictInsert, dictGet, h]
    · simp [dictInsert, dictGet, h, ih]

theorem dictGet_eq_none_of_not_mem (s : List (String × α)) (k : String)
    (h : k ∉ s.map Prod.fst) : dictGet s k = none := by
  induction s with
  | nil => simp [dictGet]
  | cons hd tl ih =>
    obtain ⟨k', v'⟩ := hd
    simp only [List.map_cons, List.mem_cons] at h
    push_neg at h
    have hne : k' ≠ k := Ne.symm h.1
    simp [dictGet, hne, ih h.2]

theorem dictDelete_of_not_mem (s : List (String × α)) (k : String)
    (h : k ∉ s.map Prod.fst) : dictDelete s k = s := by
  induction s with
  | nil => simp [dictDelete]
  | cons hd tl ih =>
    obtain ⟨k', v'⟩ := hd
    simp only [List.map_cons, List.mem_cons] at h
    push_neg at h
    have hne : k' ≠ k := Ne.symm h.1
    simp [dictDelete, hne, ih h.2]

theorem count_keys_insert (s : List (String × α)) (k : String) (v : α)
    (h : (s.map Prod.fst).count k ≤ 1) :
    ((dictInsert s k v).map Prod.fst).count k = 1 := by
  induction s with
  | nil => simp [dictInsert]
  | cons hd tl ih =>
    obtain ⟨k', v'⟩ := hd
    by_cases hk : k' = k
    · subst hk
      simp only [List.map_cons, List.count_cons_self] at h
      simp [dictInsert, List.count_cons, Nat.le_zero.mp (Nat.lt_succ_iff.mp h)]
    · simp only [List.map_cons, List.count_cons, if_neg hk] at h
      simp [dictInsert, hk, List.count_cons, ih (by omega)]

end Dict

namespace InMemoryRepository

/-- The repository state: the `_storage` dict. The `threading.Lock` only
serializes operations; in the synchronous embedding each operation is
already atomic. -/
abbrev Storage := List (String × User)

/-- The lookup `get_by_id`: `self._storage.get(id)`, absent gives `none`. -/
def get_by_id (s : Storage) (id : String) : Option User :=
  dictGet s id

/-- The `save` operation: `entity.update_timestamp()` mutates the entity's
`updated_at` in place, then `self._storage[entity.id] = entity`. The pair
returned is (new storage, the mutated entity the caller's reference sees). -/
def save (s : Storage) (now : Nat) (entity : User) : Storage × User :=
  let e := { entity with updated_at := now }
  (dictInsert s e.id e, e)

/-- The `delete` operation: removes the entry when present, else no-op. -/
def delete (s : Storage) (id : String) : Storage :=
  dictDelete s id

/-- The `get_all` operation: `list(self._storage.values())`, a fresh list
holding the current values. -/
def get_all (s : Storage) : List User :=
  s.map Prod.snd

end InMemoryRepository

namespace ConfigManager

/-- State of the one `ConfigManager` instance: the `_config` dict (generic
over the stored value type, Python `any`) and the `_initialized` flag. -/
structure State (V : Type) where
  config : List (String × V)
  inited : Bool
  deriving DecidableEq, Repr

/-- The process-wide class attribute `ConfigManager._instance`: `none`
before the first construction, otherwise the single instance. -/
abbrev Global (V : Type) := Option (State V)

/-- One call `ConfigManager()`: `__new__` allocates only when `_instance`
is `None` (setting `_initialized = False`), then `__init__` runs on the
returned instance and resets `_config` only when not yet flagged. The
result is the new `_instance`, which is also the reference handed back. -/
def construct {V : Type} : Global V → Global V
  | none => some { config := [], inited := true }
  | some c =>
    if c.inited then some c
    else some { config := [], inited := true }

/-- The `set` method: `self._config[key] = value` on the singleton. -/
def set {V : Type} (c : State V) (key : String) (value : V) : State V :=
  { c with config := dictInsert c.config key value }

/-- The `get` method with default `None`: `self._config.get(key, default)`
specialised to the absent-default, giving an `Option`. -/
def get {V : Type} (c : State V) (key : String) : Option V :=
  dictGet c.config key

end ConfigManager

/-- The two concrete `INotificationService` variants the factory can
produce (`EmailNotificationService`, `SMSNotificationService`). -/
inductive NotificationServiceKind where
  | email
  | sms
  deriving DecidableEq, Repr

namespace NotificationFactory

/-- The static factory method: `"EMAIL"` and `"SMS"` map to the two
variants; any other tag raises `ValueError(f"Unknown notification type:
{type}")`, modelled as the `InvalidArgument` error kind. -/
def create_notification_service (type : String) :
    Except Err NotificationServiceKind :=
  if type = "EMAIL" then Except.ok NotificationServiceKind.email
  else if type = "SMS" then Except.ok NotificationServiceKind.sms
  else Except.error (Err.invalidArgument ("Unknown notification type: " ++ type))

end NotificationFactory

namespace Subject

/-- Observers carry no state that `Subject` inspects; membership in
`self._observers` falls back to object identity, so a listener is modelled
by its identity, a `Nat`. -/
abbrev Listener := Nat

/-- The `attach` method: append the observer only when `not in` the list
(identity-based membership). -/
def attach (obs : List Listener) (o : Listener) : List Listener :=
  if o ∈ obs then obs else obs ++ [o]

/-- The `detach` method: remove the observer when present. -/
def detach (obs : List Listener) (o : Listener) : List Listener :=
  if o ∈ obs then obs.erase o else obs

/-- The `notify` method: `for observer in self._observers:
observer.update(event, data)`. The value returned is the sequence of
`update` invocations, in loop order: (listener, event, data) triples. -/
def notify (obs : List Listener) (event : String) (data : User) :
    List (Listener × String × User) :=
  match obs with
  | [] => []
  | o :: rest => (o, event, data) :: notify rest event data

theorem notify_eq_map (obs : List Listener) (event : String) (data : User) :
    notify obs event data = obs.map (fun o => (o, event, data)) := by
  induction obs with
  | nil => rfl
  | cons o rest ih => simp [notify, ih]

end Subject

/-- The mutable state reachable from a `UserService`: the repository's
storage, the log of `send` calls on the notification service, the
subject's observer list, the log of listener `update` invocations, and
the clock standing for `datetime.now()`. -/
structure ServiceState where
  storage : InMemoryRepository.Storage
  sent : List (String × String)
  observers : List Subject.Listener
  delivered : List (Subject.Listener × String × User)
  clock : Nat
  deriving DecidableEq, Repr

/-- One externally visible side effect of `create_user`, in order. -/
inductive Effect where
  | save (u : User)
  | send (recipient msg : String)
  | notifyEvent (event : String) (payload : User)
  deriving DecidableEq, Repr

namespace UserService

/-- The overriding `UserService.validate`: truthiness of
`user.name and user.email and "@" in user.email` — name non-empty, email
non-empty, email contains the character `@`. -/
def validate (user : User) : Bool :=
  decide (user.name ≠ "") && decide (user.email ≠ "") &&
    strContainsChar user.email '@'

/-- The `create_user` method: build the `User`, raise
`ValueError("Invalid user data")` when validation fails (no state change,
no effects), otherwise save, send the welcome notification, publish the
`"USER_CREATED"` event, and return the (timestamp-updated) user. The
triple is (result, post-state, trace of effects in execution order). -/
def create_user (st : ServiceState) (id name email : String) :
    Except Err User × ServiceState × List Effect :=
  let user := User.init id name email st.clock
  if validate user then
    let saved := InMemoryRepository.save st.storage st.clock user
    let st' : ServiceState :=
      { st with
        storage := saved.1,
        sent := st.sent ++ [(email, "Welcome!")],
        delivered := st.delivered ++
          Subject.notify st.observers "USER_CREATED" saved.2 }
    (Except.ok saved.2, st',
      [Effect.save saved.2, Effect.send email "Welcome!",
       Effect.notifyEvent "USER_CREATED" saved.2])
  else
    (Except.error (Err.validationError "Invalid user data"), st, [])

/-- The `get_user` method: pure passthrough to the repository lookup. -/
def get_user (st : ServiceState) (id : String) : Option User :=
  InMemoryRepository.get_by_id st.storage id

end UserService

namespace SystemFacade

/-- The identity of the `LoggingObserver` that `SystemFacade.__init__`
attaches to the service's subject. -/
def loggingObserver : Subject.Listener := 0

/-- A `SystemFacade` instance: its own `UserService` state (built around a
fresh `InMemoryRepository`) plus the notification variant chosen via the
factory. The class attribute `_instance` is declared in the source but
never read or written, so construction performs no instance sharing. -/
structure Facade where
  service : ServiceState
  notification_service : NotificationServiceKind
  deriving DecidableEq, Repr

/-- The `SystemFacade.__init__` constructor: fresh empty repository, email
notification service from the factory, a `UserService` over them, and one
logging observer attached to the service's subject. -/
def new (clock : Nat) : Facade :=
  { service :=
      { storage := [], sent := [],
        observers := Subject.attach [] loggingObserver,
        delivered := [], clock := clock },
    notification_service := NotificationServiceKind.email }

/-- Facade `create_user`: direct delegation to the service. -/
def create_user (f : Facade) (id name email : String) :
    Except Err User × Facade × List Effect :=
  let r := UserService.create_user f.service id name email
  (r.1, { f with service := r.2.1 }, r.2.2)

/-- Facade `get_user`: direct delegation to the service. -/
def get_user (f : Facade) (id : String) : Option User :=
  UserService.get_user f.service id

end SystemFacade

/-- A world tracking, besides the repository storage, the list objects
previously returned by `get_all`. `list(self._storage.values())` builds a
fresh list, so later mutation of the dict cannot reach an already returned
snapshot; the snapshots component records each returned list as its own
value. -/
structure SnapWorld where
  storage : InMemoryRepository.Storage
  snapshots : List (List User)
  deriving DecidableEq, Repr

namespace SnapWorld

/-- Calling `get_all` in the world: returns the fresh snapshot list and
records it. -/
def get_all (w : SnapWorld) : List User × SnapWorld :=
  let snap := InMemoryRepository.get_all w.storage
  (snap, { w with snapshots := w.snapshots ++ [snap] })

/-- Calling `save` in the world: mutates only the repository dict. -/
def save (w : SnapWorld) (now : Nat) (e : User) : SnapWorld :=
  { w with storage := (InMemoryRepository.save w.storage now e).1 }

/-- Calling `delete` in the world: mutates only the repository dict. -/
def delete (w : SnapWorld) (id : String) : SnapWorld :=
  { w with storage := InMemoryRepository.delete w.storage id }

end SnapWorld

/-- A concrete empty service state used by concrete instantiations: empty
storage, no sends, one attached observer, no deliveries, clock 0. -/
def st0 : ServiceState :=
  { storage := [], sent := [], observers := [0], delivered := [], clock := 0 }

/-- C1: when name is empty, or email is empty, or email lacks the
character `@`, `create_user` raises the `ValidationError` and leaves the
repository, the notification service and the event bus untouched (state
unchanged, empty effect trace); when all three conditions hold, no
validation error is raised. -/
theorem create_user_atomic_rejection (st : ServiceState) (id name email : String) :
    ((name = "" ∨ email = "" ∨ strContainsChar email '@' = false) →
      UserService.create_user st id name email =
        (Except.error (Err.validationError "Invalid user data"), st, [])) ∧
    ((name ≠ "" ∧ email ≠ "" ∧ strContainsChar email '@' = true) →
      ∃ u st' tr, UserService.create_user st id name email =
        (Except.ok u, st', tr)) := by
  constructor
  · intro h
    have hv : UserService.validate (User.init id name email st.clock) = false := by
      rcases h with h | h | h <;> simp [UserService.validate, User.init, h]
    simp [UserService.create_user, hv]
  · rintro ⟨h1, h2, h3⟩
    have hv : UserService.validate (User.init id name email st.clock) = true := by
      simp [UserService.validate, User.init, h1, h2, h3]
    refine ⟨(InMemoryRepository.save st.storage st.clock
        (User.init id name email st.clock)).2,
      { st with
        storage := (InMemoryRepository.save st.storage st.clock
          (User.init id name email st.clock)).1,
        sent := st.sent ++ [(email, "Welcome!")],
        delivered := st.delivered ++ Subject.notify st.observers "USER_CREATED"
          (InMemoryRepository.save st.storage st.clock
            (User.init id name email st.clock)).2 },
      [Effect.save (InMemoryRepository.save st.storage st.clock
          (User.init id name email st.clock)).2,
       Effect.send email "Welcome!",
       Effect.notifyEvent "USER_CREATED" (InMemoryRepository.save st.storage
         st.clock (User.init id name email st.clock)).2], ?_⟩
    simp [UserService.create_user, hv]

/-- Witness for C1: the rejected `("2", "Bob", "bad-email")` input leaves
the state untouched with no effects, while `("1", "Alice",
"alice@example.com")` raises no validation error. -/
theorem create_user_atomic_rejection_witness :
    (UserService.create_user st0 "2" "Bob" "bad-email" =
      (Except.error (Err.validationError "Invalid user data"), st0, [])) ∧
    (∃ u st' tr, UserService.create_user st0 "1" "Alice" "alice@example.com" =
      (Except.ok u, st', tr)) :=
  ⟨(create_user_atomic_rejection st0 "2" "Bob" "bad-email").1
      (Or.inr (Or.inr (by decide))),
   (create_user_atomic_rejection st0 "1" "Alice" "alice@example.com").2
      ⟨by decide, by decide, by decide⟩⟩

/-- C2: on inputs passing validation, `create_user` performs exactly the
effect sequence save, send-to-email, publish `"USER_CREATED"` with the
created entity as payload, in that order; it returns the created entity
with the given id and status `ACTIVE`, and `get_user` on the post-state
returns that same entity. -/
theorem create_user_effect_sequence (st : ServiceState) (id name email : String)
    (h1 : name ≠ "") (h2 : email ≠ "") (h3 : strContainsChar email '@' = true) :
    ∃ u st', UserService.create_user st id name email =
        (Except.ok u, st',
         [Effect.save u, Effect.send email "Welcome!",
          Effect.notifyEvent "USER_CREATED" u]) ∧
      u.id = id ∧ u.status = EntityStatus.ACTIVE ∧
      UserService.get_user st' id = some u := by
  have hv : UserService.validate (User.init id name email st.clock) = true := by
    simp [UserService.validate, User.init, h1, h2, h3]
  refine ⟨(InMemoryRepository.save st.storage st.clock
            (User.init id name email st.clock)).2,
    { st with
      storage := (InMemoryRepository.save st.storage st.clock
        (User.init id name email st.clock)).1,
      sent := st.sent ++ [(email, "Welcome!")],
      delivered := st.delivered ++ Subject.notify st.observers "USER_CREATED"
        (InMemoryRepository.save st.storage st.clock
          (User.init id name email st.clock)).2 },
    ?_, rfl, rfl, ?_⟩
  · simp [UserService.create_user, hv]
  · simp [UserService.get_user, InMemoryRepository.get_by_id,
      InMemoryRepository.save, User.init, dictGet_insert_self]

/-- Witness for C2: the scenario input `("1", "Alice",
"alice@example.com")` on the empty state. -/
theorem create_user_effect_sequence_witness :
    ∃ u st', UserService.create_user st0 "1" "Alice" "alice@example.com" =
        (Except.ok u, st',
         [Effect.save u, Effect.send "alice@example.com" "Welcome!",
          Effect.notifyEvent "USER_CREATED" u]) ∧
      u.id = "1" ∧ u.status = EntityStatus.ACTIVE ∧
      UserService.get_user st' "1" = some u :=
  create_user_effect_sequence st0 "1" "Alice" "alice@example.com"
    (by decide) (by decide) (by decide)

/-- C3: saving two entities with the same identifier into a storage with
duplicate-free keys leaves exactly one entry for that identifier; looking
it up yields the second entity, whose `updated_at` was set to the save
time before insertion, and `save` hands that mutated entity back to the
caller. -/
theorem save_overwrite_unique (s : InMemoryRepository.Storage) (t1 t2 : Nat)
    (e1 e2 : User) (hid : e1.id = e2.id)
    (hnd : (s.map Prod.fst).Nodup) :
    ((((InMemoryRepository.save (InMemoryRepository.save s t1 e1).1 t2 e2).1).map
        Prod.fst).count e2.id = 1) ∧
    InMemoryRepository.get_by_id
        (InMemoryRepository.save (InMemoryRepository.save s t1 e1).1 t2 e2).1
        e2.id = some { e2 with updated_at := t2 } ∧
    (InMemoryRepository.save (InMemoryRepository.save s t1 e1).1 t2 e2).2 =
      { e2 with updated_at := t2 } := by
  have h0 : (s.map Prod.fst).count e2.id ≤ 1 :=
    List.nodup_iff_count_le_one.mp hnd e2.id
  have h1 : (((InMemoryRepository.save s t1 e1).1).map Prod.fst).count e2.id ≤ 1 := by
    have := count_keys_insert s e1.id { e1 with updated_at := t1 }
      (hid ▸ h0)
    simp only [InMemoryRepository.save]
    rw [show ({ e1 with updated_at := t1 } : User).id = e1.id from rfl]
    rw [hid] at this ⊢
    omega
  refine ⟨?_, ?_, rfl⟩
  · have := count_keys_insert (InMemoryRepository.save s t1 e1).1 e2.id
      { e2 with updated_at := t2 } h1
    simpa [InMemoryRepository.save] using this
  · simp [InMemoryRepository.save, InMemoryRepository.get_by_id]
    exact dictGet_insert_self _ _ _

/-- Witness for C3: overwriting id `"1"` with a second entity in the
singleton store. -/
theorem save_overwrite_unique_witness :
    ((((InMemoryRepository.save
          (InMemoryRepository.save [] 1 (User.init "1" "Alice" "a@x" 0)).1 2
          (User.init "1" "Alicia" "b@x" 0)).1).map Prod.fst).count "1" = 1) ∧
    InMemoryRepository.get_by_id
        (InMemoryRepository.save
          (InMemoryRepository.save [] 1 (User.init "1" "Alice" "a@x" 0)).1 2
          (User.init "1" "Alicia" "b@x" 0)).1 "1" =
      some { User.init "1" "Alicia" "b@x" 0 with updated_at := 2 } ∧
    (InMemoryRepository.save
        (InMemoryRepository.save [] 1 (User.init "1" "Alice" "a@x" 0)).1 2
        (User.init "1" "Alicia" "b@x" 0)).2 =
      { User.init "1" "Alicia" "b@x" 0 with updated_at := 2 } :=
  save_overwrite_unique [] 1 2 (User.init "1" "Alice" "a@x" 0)
    (User.init "1" "Alicia" "b@x" 0) rfl (by decide)

theorem notify_filter_length (lst : List Subject.Listener)
    (o : Subject.Listener) (e : String) (d : User) :
    ((Subject.notify lst e d).filter (fun x => x.1 == o)).length = lst.count o := by
  induction lst with
  | nil => rfl
  | cons a rest ih =>
    by_cases hao : a = o
    · subst hao
      simp [Subject.notify, List.count_cons, List.filter_cons, ih]
    · simp [Subject.notify, List.count_cons, List.filter_cons, hao, ih]

/-- C4: attaching the same listener twice leaves the observer list as one
attach would (idempotence, for every prior collection); when the listener
occurs at most once beforehand (the invariant of identity-deduplicated
lists), exactly one occurrence remains and a subsequent notify performs
exactly one `update` invocation on it. -/
theorem attach_idempotent_once (obs : List Subject.Listener)
    (o : Subject.Listener) (e : String) (d : User) (h : obs.count o ≤ 1) :
    Subject.attach (Subject.attach obs o) o = Subject.attach obs o ∧
    (Subject.attach (Subject.attach obs o) o).count o = 1 ∧
    ((Subject.notify (Subject.attach (Subject.attach obs o) o) e d).filter
        (fun x => x.1 == o)).length = 1 := by
  have hmem : o ∈ Subject.attach obs o := by
    by_cases ho : o ∈ obs <;> simp [Subject.attach, ho]
  have heq : Subject.attach (Subject.attach obs o) o = Subject.attach obs o := by
    show (if o ∈ Subject.attach obs o then Subject.attach obs o
      else Subject.attach obs o ++ [o]) = Subject.attach obs o
    rw [if_pos hmem]
  have hcount : (Subject.attach obs o).count o = 1 := by
    by_cases ho : o ∈ obs
    · have h1 : 0 < obs.count o := List.count_pos_iff.mpr ho
      simp only [Subject.attach, if_pos ho]
      omega
    · have h0 : obs.count o = 0 := List.count_eq_zero_of_not_mem ho
      simp [Subject.attach, ho, List.count_append, h0]
  exact ⟨heq, by rw [heq]; exact hcount,
    by rw [heq, notify_filter_length]; exact hcount⟩

/-- Witness for C4: attaching listener 5 twice to the collection `[3]`. -/
theorem attach_idempotent_once_witness :
    Subject.attach (Subject.attach [3] 5) 5 = Subject.attach [3] 5 ∧
    (Subject.attach (Subject.attach [3] 5) 5).count 5 = 1 ∧
    ((Subject.notify (Subject.attach (Subject.attach [3] 5) 5) "USER_CREATED"
        (User.init "1" "Alice" "a@x" 0)).filter (fun x => x.1 == 5)).length = 1 :=
  attach_idempotent_once [3] 5 "USER_CREATED" (User.init "1" "Alice" "a@x" 0)
    (by decide)

/-- C5: notify invokes the update callbacks of exactly the currently
attached listeners, once each and in attachment order (the sequence of
notified listeners equals the observer list itself), passing the event
name and payload to each. -/
theorem notify_attachment_order (obs : List Subject.Listener) (e : String)
    (d : User) :
    (Subject.notify obs e d).map Prod.fst = obs ∧
    ∀ x ∈ Subject.notify obs e d, x.2.1 = e ∧ x.2.2 = d := by
  constructor
  · induction obs with
    | nil => rfl
    | cons o rest ih => simp [Subject.notify, ih]
  · intro x hx
    rw [Subject.notify_eq_map] at hx
    simp only [List.mem_map] at hx
    obtain ⟨l, _, rfl⟩ := hx
    exact ⟨rfl, rfl⟩

/-- C6: `get_all` returns a snapshot of the current values whose recorded
list object is unaffected by a later save or delete on the store. -/
theorem get_all_snapshot_frame (w : SnapWorld) (now : Nat) (e : User)
    (id : String) :
    (SnapWorld.get_all w).2.snapshots =
      w.snapshots ++ [(SnapWorld.get_all w).1] ∧
    (SnapWorld.save (SnapWorld.get_all w).2 now e).snapshots =
      (SnapWorld.get_all w).2.snapshots ∧
    (SnapWorld.delete (SnapWorld.get_all w).2 id).snapshots =
      (SnapWorld.get_all w).2.snapshots ∧
    (SnapWorld.get_all w).1 = InMemoryRepository.get_all w.storage :=
  ⟨rfl, rfl, rfl, rfl⟩

/-- C7: for an id absent from the store, `get_by_id` returns the absent
marker without raising, and `delete` is a no-op leaving the mapping
unchanged, also when repeated. -/
theorem absence_not_error (s : InMemoryRepository.Storage) (id : String)
    (h : id ∉ s.map Prod.fst) :
    InMemoryRepository.get_by_id s id = none ∧
    InMemoryRepository.delete s id = s ∧
    InMemoryRepository.delete (InMemoryRepository.delete s id) id = s := by
  have h2 : InMemoryRepository.delete s id = s := dictDelete_of_not_mem s id h
  refine ⟨dictGet_eq_none_of_not_mem s id h, h2, ?_⟩
  rw [h2]
  exact h2

/-- Witness for C7: id `"2"` absent from the singleton store for `"1"`. -/
theorem absence_not_error_witness :
    InMemoryRepository.get_by_id [("1", User.init "1" "Alice" "a@x" 0)] "2" =
      none ∧
    InMemoryRepository.delete [("1", User.init "1" "Alice" "a@x" 0)] "2" =
      [("1", User.init "1" "Alice" "a@x" 0)] ∧
    InMemoryRepository.delete
        (InMemoryRepository.delete [("1", User.init "1" "Alice" "a@x" 0)] "2")
        "2" = [("1", User.init "1" "Alice" "a@x" 0)] :=
  absence_not_error [("1", User.init "1" "Alice" "a@x" 0)] "2" (by decide)

theorem construct_inited {V : Type} (g : ConfigManager.Global V) :
    ∃ c, ConfigManager.construct g = some c ∧ c.inited = true := by
  cases g with
  | none => exact ⟨_, rfl, rfl⟩
  | some c =>
    by_cases h : c.inited
    · exact ⟨c, by simp [ConfigManager.construct, h], h⟩
    · exact ⟨{ config := [], inited := true },
        by simp [ConfigManager.construct, h], rfl⟩

/-- C8: constructing the `ConfigManager` a second time returns the same
instance without re-running initialization (`construct` is idempotent on
the process-wide `_instance`), and a `set` performed through the shared
instance is observable via `get` even after a further construction. -/
theorem config_singleton_shared {V : Type} (g : ConfigManager.Global V)
    (k : String) (v : V) :
    ConfigManager.construct (ConfigManager.construct g) =
      ConfigManager.construct g ∧
    ∃ c, ConfigManager.construct g = some c ∧
      ConfigManager.construct (some (ConfigManager.set c k v)) =
        some (ConfigManager.set c k v) ∧
      ConfigManager.get (ConfigManager.set c k v) k = some v := by
  obtain ⟨c, hc, hi⟩ := construct_inited g
  refine ⟨?_, c, hc, ?_, ?_⟩
  · rw [hc]
    simp [ConfigManager.construct, hi]
  · simp [ConfigManager.construct, ConfigManager.set, hi]
  · exact dictGet_insert_self _ _ _

/-- C9: the factory maps `"EMAIL"` to the email variant and `"SMS"` to
the SMS variant; every other tag yields the `InvalidArgument` error whose
message names the unrecognized tag, and no service is created. -/
theorem factory_tag_mapping (t : String) :
    NotificationFactory.create_notification_service "EMAIL" =
      Except.ok NotificationServiceKind.email ∧
    NotificationFactory.create_notification_service "SMS" =
      Except.ok NotificationServiceKind.sms ∧
    (t ≠ "EMAIL" → t ≠ "SMS" →
      NotificationFactory.create_notification_service t =
        Except.error
          (Err.invalidArgument ("Unknown notification type: " ++ t))) := by
  refine ⟨rfl, rfl, ?_⟩
  intro hE hS
  simp [NotificationFactory.create_notification_service, hE, hS]

/-- Witness for C9: the unrecognized tag `"PUSH"`. -/
theorem factory_tag_mapping_witness :
    NotificationFactory.create_notification_service "EMAIL" =
      Except.ok NotificationServiceKind.email ∧
    NotificationFactory.create_notification_service "SMS" =
      Except.ok NotificationServiceKind.sms ∧
    NotificationFactory.create_notification_service "PUSH" =
      Except.error
        (Err.invalidArgument ("Unknown notification type: " ++ "PUSH")) :=
  ⟨(factory_tag_mapping "PUSH").1, (factory_tag_mapping "PUSH").2.1,
   (factory_tag_mapping "PUSH").2.2 (by decide) (by decide)⟩

/-- C10: constructing `SystemFacade` twice yields independent systems with
separate repositories — the never-consulted `_instance` attribute adds no
sharing: a user created through one facade is visible through that facade
but `get_user` on the other, separately constructed facade still returns
the absent marker. -/
theorem facade_independent_instances (c1 c2 : Nat) (id name email : String)
    (h1 : name ≠ "") (h2 : email ≠ "") (h3 : strContainsChar email '@' = true) :
    (∃ u, (SystemFacade.create_user (SystemFacade.new c1) id name email).1 =
        Except.ok u ∧
      SystemFacade.get_user
        (SystemFacade.create_user (SystemFacade.new c1) id name email).2.1 id =
        some u) ∧
    SystemFacade.get_user (SystemFacade.new c2) id = none := by
  have hv : UserService.validate
      { id := id, name := name, email := email, status := EntityStatus.ACTIVE,
        created_at := c1, updated_at := c1 } = true := by
    simp [UserService.validate, h1, h2, h3]
  constructor
  · refine ⟨User.init id name email c1, ?_, ?_⟩
    · simp [SystemFacade.create_user, SystemFacade.new,
        SystemFacade.loggingObserver, Subject.attach, UserService.create_user,
        User.init, InMemoryRepository.save, hv]
    · simp [SystemFacade.create_user, SystemFacade.new, SystemFacade.get_user,
        SystemFacade.loggingObserver, Subject.attach, UserService.create_user,
        UserService.get_user, User.init, InMemoryRepository.get_by_id,
        InMemoryRepository.save, hv, dictInsert, dictGet]
  · rfl

/-- Witness for C10: `("1", "Alice", "alice@example.com")` created through
the first facade; the second facade still reports id `"1"` absent. -/
theorem facade_independent_instances_witness :
    (∃ u, (SystemFacade.create_user (SystemFacade.new 0) "1" "Alice"
        "alice@example.com").1 = Except.ok u ∧
      SystemFacade.get_user
        (SystemFacade.create_user (SystemFacade.new 0) "1" "Alice"
          "alice@example.com").2.1 "1" = some u) ∧
    SystemFacade.get_user (SystemFacade.new 7) "1" = none :=
  facade_independent_instances 0 7 "1" "Alice" "alice@example.com"
    (by decide) (by decide) (by decide)
